import Mathlib

/-!
Verification of the Custom Dashboard panel plugin
(`plugins/custom-dashboard/__init__.py`).

The Python module is shallowly embedded below.  Python dicts with decidable
keys are modelled as association lists (first occurrence wins on lookup,
in-place replacement on assignment, which coincides with dict semantics
because dict keys are unique).  The host SDK surface used by the plugin
(`ctx.view` aggregation calls, `exec` of user snippets, `ctx.panel`
state/data storage) is modelled as explicit records of functions and an
explicit `Panel` store.  Numeric values flowing through histogram payloads
are modelled as rationals.
-/

/-- Python dict lookup `m.get(k)`: value at the first occurrence of `k`. -/
def dget {κ α : Type} [DecidableEq κ] : List (κ × α) → κ → Option α
  | [], _ => none
  | (k', v) :: rest, k => if k' = k then some v else dget rest k

/-- Python dict assignment `m[k] = v`: replace in place, or append if new. -/
def dset {κ α : Type} [DecidableEq κ] : List (κ × α) → κ → α → List (κ × α)
  | [], k, v => [(k, v)]
  | (k', v') :: rest, k, v =>
      if k' = k then (k, v) :: rest else (k', v') :: dset rest k v

/-- Python dict `m.pop(k)` minus the raising: removes the entry keyed `k`. -/
def dpop {κ α : Type} [DecidableEq κ] : List (κ × α) → κ → List (κ × α)
  | [], _ => []
  | (k', v') :: rest, k => if k' = k then rest else (k', v') :: dpop rest k

/-- Apply a batch of dict assignments in order (`panel.batch_set_data`). -/
def dsetAll {κ α : Type} [DecidableEq κ] (m : List (κ × α)) (upds : List (κ × α)) :
    List (κ × α) :=
  upds.foldl (fun acc kv => dset acc kv.1 kv.2) m

theorem dget_dset_self {κ α : Type} [DecidableEq κ] (m : List (κ × α)) (k : κ) (v : α) :
    dget (dset m k v) k = some v := by
  induction m with
  | nil => simp [dset, dget]
  | cons hd tl ih =>
      obtain ⟨k', v'⟩ := hd
      by_cases h : k' = k <;> simp [dset, dget, h, ih]

theorem dget_dset_ne {κ α : Type} [DecidableEq κ] (m : List (κ × α)) (k k' : κ) (v : α)
    (h : k' ≠ k) : dget (dset m k v) k' = dget m k' := by
  have h' : k ≠ k' := Ne.symm h
  induction m with
  | nil => simp [dset, dget, h']
  | cons hd tl ih =>
      obtain ⟨k₀, v₀⟩ := hd
      by_cases h0 : k₀ = k
      · subst h0
        simp [dset, dget, h']
      · simp [dset, dget, h0, ih]

theorem dget_isSome_iff_mem_keys {κ α : Type} [DecidableEq κ] (m : List (κ × α)) (k : κ) :
    (dget m k).isSome ↔ k ∈ m.map Prod.fst := by
  induction m with
  | nil => simp [dget]
  | cons hd tl ih =>
      obtain ⟨k', v⟩ := hd
      by_cases h : k' = k
      · simp [dget, h]
      · have h' : ¬k = k' := fun hh => h hh.symm
        simp [dget, h, h', ih]

theorem keys_dset {κ α : Type} [DecidableEq κ] (m : List (κ × α)) (k : κ) (v : α) :
    (dset m k v).map Prod.fst =
      if k ∈ m.map Prod.fst then m.map Prod.fst else m.map Prod.fst ++ [k] := by
  induction m with
  | nil => simp [dset]
  | cons hd tl ih =>
      obtain ⟨k', v'⟩ := hd
      by_cases h : k' = k
      · subst h
        simp [dset]
      · have h' : ¬k = k' := fun hh => h hh.symm
        by_cases hmem : k ∈ tl.map Prod.fst <;>
          simp [dset, h, h', ih, hmem]

theorem keys_dset_nodup {κ α : Type} [DecidableEq κ] (m : List (κ × α)) (k : κ) (v : α)
    (h : (m.map Prod.fst).Nodup) : ((dset m k v).map Prod.fst).Nodup := by
  rw [keys_dset]
  by_cases hmem : k ∈ m.map Prod.fst
  · simpa [hmem] using h
  · rw [if_neg hmem]
    have hd : List.Disjoint (m.map Prod.fst) [k] := by
      intro a ha hb
      rw [List.mem_singleton] at hb
      subst hb
      exact hmem ha
    exact h.append (List.nodup_singleton k) hd

theorem length_dset {κ α : Type} [DecidableEq κ] (m : List (κ × α)) (k : κ) (v : α) :
    (dset m k v).length =
      if k ∈ m.map Prod.fst then m.length else m.length + 1 := by
  have h := congrArg List.length (keys_dset m k v)
  by_cases hmem : k ∈ m.map Prod.fst <;> simpa [hmem] using h

theorem dpop_of_dget_none {κ α : Type} [DecidableEq κ] (m : List (κ × α)) (k : κ)
    (h : dget m k = none) : dpop m k = m := by
  induction m with
  | nil => simp [dpop]
  | cons hd tl ih =>
      obtain ⟨k', v⟩ := hd
      by_cases hk : k' = k
      · simp [dget, hk] at h
      · simp only [dget, if_neg hk] at h
        simp [dpop, hk, ih h]

theorem dget_of_mem_of_nodup {κ α : Type} [DecidableEq κ] (m : List (κ × α)) (k : κ) (v : α)
    (hmem : (k, v) ∈ m) (hnd : (m.map Prod.fst).Nodup) : dget m k = some v := by
  induction m with
  | nil => simp at hmem
  | cons hd tl ih =>
      obtain ⟨k', v'⟩ := hd
      rw [List.map_cons, List.nodup_cons] at hnd
      rcases List.mem_cons.mp hmem with h | h
      · injection h with h1 h2
        subst h1
        subst h2
        simp [dget]
      · have hk : k' ≠ k := by
          intro hh
          exact hnd.1 (hh ▸ List.mem_map.mpr ⟨(k, v), h, rfl⟩)
        simp [dget, hk, ih h hnd.2]

theorem dget_dsetAll_not_mem {κ α : Type} [DecidableEq κ] (upds : List (κ × α)) :
    ∀ (m : List (κ × α)) (k : κ), k ∉ upds.map Prod.fst →
      dget (dsetAll m upds) k = dget m k := by
  induction upds with
  | nil => intro m k _; rfl
  | cons hd tl ih =>
      intro m k hk
      obtain ⟨k', v⟩ := hd
      rw [List.map_cons, List.mem_cons, not_or] at hk
      have step : dsetAll m ((k', v) :: tl) = dsetAll (dset m k' v) tl := rfl
      have hk1 : k ≠ k' := fun hh => hk.1 hh
      rw [step, ih (dset m k' v) k hk.2, dget_dset_ne m k' k v hk1]

theorem dget_dsetAll_of_dget {κ α : Type} [DecidableEq κ] (upds : List (κ × α)) :
    ∀ (m : List (κ × α)) (k : κ) (v : α), (upds.map Prod.fst).Nodup →
      dget upds k = some v → dget (dsetAll m upds) k = some v := by
  induction upds with
  | nil => intro m k v _ h; simp [dget] at h
  | cons hd tl ih =>
      intro m k v hnd h
      obtain ⟨k', v'⟩ := hd
      rw [List.map_cons, List.nodup_cons] at hnd
      have step : dsetAll m ((k', v') :: tl) = dsetAll (dset m k' v') tl := rfl
      by_cases hk : k' = k
      · subst hk
        have hv : v' = v := by simpa [dget] using h
        subst hv
        rw [step, dget_dsetAll_not_mem tl (dset m k' v') k' hnd.1,
          dget_dset_self m k' v']
      · simp only [dget, if_neg hk] at h
        rw [step, ih (dset m k' v') k v hnd.2 h]

theorem dget_map_key_inj {κ κ' α : Type} [DecidableEq κ] [DecidableEq κ']
    (f : κ → κ') (hf : Function.Injective f) (m : List (κ × α)) (k : κ) :
    dget (m.map (fun kv => (f kv.1, kv.2))) (f k) = dget m k := by
  induction m with
  | nil => rfl
  | cons hd tl ih =>
      obtain ⟨k', v⟩ := hd
      by_cases h : k' = k
      · simp [dget, h]
      · have hne : f k' ≠ f k := fun hh => h (hf hh)
        simp [dget, h, hne, ih]

/-! ### The data model of `custom-dashboard/__init__.py` -/

/-- `class PlotlyPlotType(enum.Enum)`. -/
inductive PlotlyPlotType where
  | bar
  | scatter
  | line
  | pie
deriving DecidableEq, Repr

/-- `.value` of a `PlotlyPlotType` member. -/
def PlotlyPlotType.value : PlotlyPlotType → String
  | .bar => "bar"
  | .scatter => "scatter"
  | .line => "line"
  | .pie => "pie"

/-- `class PlotType(enum.Enum)`: the five chart kinds. -/
inductive PlotType where
  | categorical_histogram
  | numeric_histogram
  | line
  | scatter
  | pie
deriving DecidableEq, Repr

/-- `.value` of a `PlotType` member. -/
def PlotType.value : PlotType → String
  | .categorical_histogram => "categorical_histogram"
  | .numeric_histogram => "numeric_histogram"
  | .line => "line"
  | .scatter => "scatter"
  | .pie => "pie"

/-- `PlotType(s)`: enum lookup by value; `none` models the `ValueError`
raised by Python when `s` is not one of the five member values. -/
def PlotType.ofString (s : String) : Option PlotType :=
  if s = "categorical_histogram" then some .categorical_histogram
  else if s = "numeric_histogram" then some .numeric_histogram
  else if s = "line" then some .line
  else if s = "scatter" then some .scatter
  else if s = "pie" then some .pie
  else none

/-- `get_plotly_plot_type(plot_type)`. -/
def get_plotly_plot_type : PlotType → PlotlyPlotType
  | .categorical_histogram => .bar
  | .numeric_histogram => .bar
  | .line => .line
  | .scatter => .scatter
  | .pie => .pie

/-- The `color` entry of the configure-plot params: a dict `{"hex": ...}`
produced by the host color picker. -/
structure ColorParam where
  hex : Option String
deriving DecidableEq, Repr

/-- An axis object built by `create_axis_input`: a dict `{"title": ...}`. -/
structure AxisObj where
  title : Option String
deriving DecidableEq, Repr

/-- The `result` dict handed to `handle_plot_change` (the params of the
`configure_plot` operator).  Each field models `result.get("<field>")`;
`none` is an absent key. -/
structure PlotParams where
  name : Option String
  plot_type : Option String
  plot_title : Option String
  color : Option ColorParam
  xaxis : Option AxisObj
  yaxis : Option AxisObj
  use_code : Option Bool
  code : Option String
  update_on_change : Option Bool
  x_field : Option String
  y_field : Option String
  field : Option String
  bins : Option Int
deriving DecidableEq, Repr

/-- A plot `config` dict.  In this module only the `"title"` key is ever
read (by `DashboardPlotItem.label` and `load_pie_data`), and the only
config ever constructed is the empty dict; a string-valued dict captures
every access the code makes. -/
abbrev PlotConfig := List (String × String)

/-- The plotly `layout` dict assembled by `get_plotly_config_and_layout`:
exactly the keys that function can set. -/
structure PlotLayout where
  title : Option String
  marker : Option ColorParam
  xaxis : Option AxisObj
  yaxis : Option AxisObj
  bargap : Option Nat
  bargroupgap : Option Nat
deriving DecidableEq, Repr

/-- The empty layout dict `{}`. -/
def PlotLayout.empty : PlotLayout :=
  { title := none, marker := none, xaxis := none, yaxis := none,
    bargap := none, bargroupgap := none }

/-- `get_plotly_config_and_layout(plot_config)`: returns the pair
`(config, layout)`.  `config` is always `{}`.  A key is set in `layout`
only when the corresponding params entry is truthy (for `plot_title`,
a present non-empty string; `color`/`xaxis`/`yaxis` dicts are non-empty
whenever present); `bargap`/`bargroupgap` are zeroed exactly for
`plot_type == "numeric_histogram"`. -/
def get_plotly_config_and_layout (pc : PlotParams) : PlotConfig × PlotLayout :=
  ([],
   { title := pc.plot_title.bind (fun t => if t = "" then none else some t),
     marker := pc.color,
     xaxis := pc.xaxis,
     yaxis := pc.yaxis,
     bargap := if pc.plot_type = some "numeric_histogram" then some 0 else none,
     bargroupgap := if pc.plot_type = some "numeric_histogram" then some 0 else none })

/-- `class DashboardPlotItem`: one widget configuration.  The constructor
argument `type` passes through `PlotType(type)`, so a stored item always
carries one of the five enum members. -/
structure DashboardPlotItem where
  name : String
  type : PlotType
  config : PlotConfig
  layout : PlotLayout
  raw_params : Option PlotParams
  use_code : Bool
  code : Option String
  update_on_change : Option Bool
  x_field : Option String
  y_field : Option String
  field : Option String
  bins : Int
deriving DecidableEq, Repr

/-- The dict produced by `DashboardPlotItem.to_dict` and consumed by
`DashboardPlotItem.from_dict`.  Optional fields model keys that may be
absent (or `None`, which `data.get` does not distinguish) in a stored
dict; `name` is the widget key and is modelled as always a string. -/
structure ItemDict where
  name : String
  type : Option String
  config : Option PlotConfig
  layout : Option PlotLayout
  raw_params : Option PlotParams
  use_code : Option Bool
  code : Option String
  update_on_change : Option Bool
  x_field : Option String
  y_field : Option String
  field : Option String
  bins : Option Int
deriving DecidableEq, Repr

/-- `DashboardPlotItem.to_dict`. -/
def DashboardPlotItem.to_dict (it : DashboardPlotItem) : ItemDict :=
  { name := it.name,
    type := some it.type.value,
    config := some it.config,
    layout := some it.layout,
    raw_params := it.raw_params,
    use_code := some it.use_code,
    code := it.code,
    update_on_change := it.update_on_change,
    x_field := it.x_field,
    y_field := it.y_field,
    field := it.field,
    bins := some it.bins }

/-- `DashboardPlotItem.from_dict(data)`: `none` models the `ValueError`
raised by `PlotType(data.get("type"))` on a missing or invalid type.
The defaults mirror the `data.get` calls (`use_code` defaults to `False`,
`bins` to `10`); a missing `config`/`layout` is modelled as the empty
dict, the only shape in which the rest of the module reads them. -/
def DashboardPlotItem.from_dict (d : ItemDict) : Option DashboardPlotItem :=
  (d.type.bind PlotType.ofString).map fun t =>
    { name := d.name,
      type := t,
      config := d.config.getD [],
      layout := d.layout.getD PlotLayout.empty,
      raw_params := d.raw_params,
      use_code := d.use_code.getD false,
      code := d.code,
      update_on_change := d.update_on_change,
      x_field := d.x_field,
      y_field := d.y_field,
      field := d.field,
      bins := d.bins.getD 10 }

/-- `to_configure_plot_params`: `{**self.raw_params, "name": self.name}`.
`none` models the `TypeError` raised when `raw_params` is `None`. -/
def DashboardPlotItem.to_configure_plot_params (it : DashboardPlotItem) :
    Option PlotParams :=
  it.raw_params.map fun rp => { rp with name := some it.name }

/-! ### Chart payloads and the host view -/

/-- A value stored in a chart payload dict. -/
inductive PVal where
  | str : String → PVal
  | intList : List Int → PVal
  | ratList : List ℚ → PVal
  | strList : List String → PVal
deriving DecidableEq, Repr

/-- A chart payload: the plotly data dict built by the loaders. -/
abbrev Payload := List (String × PVal)

/-- The host dataset view (`ctx.view`): the aggregation primitives the
loaders call.  `count_values` returns a category-to-count dict,
`histogram_values` returns `(counts, edges)` (the unused third component
is dropped), `values` projects a field expression `F(field)` (the
argument may be `None`, as in `load_scatter_data`), `values_id` is
`view.values("id")`, and `code_exec` models `exec` of a user snippet:
`none` is a raised exception, `some d` the `data` dict it defined. -/
structure HostView where
  count_values : String → List (String × Int)
  histogram_values : String → Int → List ℚ × List ℚ
  values : Option String → List ℚ
  values_id : List String
  code_exec : String → Option Payload

/-! ### Panel state and DashboardState -/

inductive PyErr where
  | valueError
  | keyError
  | typeError
deriving DecidableEq, Repr

/-- The serialized widget collection stored under panel state key
`"items_config"`. -/
abbrev ItemsConfig := List (String × ItemDict)

/-- The host-managed panel store: `items_config` is the value under the
single state key this module uses (`get_state`/`set_state
"items_config"`), and `data` is the render-data store addressed by
`batch_set_data` paths. -/
structure Panel where
  items_config : Option ItemsConfig
  data : List (String × Payload)
deriving DecidableEq, Repr

/-- `class DashboardState`: in-memory widget dict and per-widget data. -/
structure DashboardState where
  _items : List (String × DashboardPlotItem)
  _data : List (String × Payload)
deriving DecidableEq, Repr

/-- The parsing loop of `DashboardState.__init__`: `none` models the
`ValueError` propagating out of `DashboardPlotItem.from_dict`. -/
def parseItems : ItemsConfig → Option (List (String × DashboardPlotItem))
  | [] => some []
  | (k, d) :: rest =>
      match DashboardPlotItem.from_dict d with
      | none => none
      | some it => (parseItems rest).map (fun l => (k, it) :: l)

/-- `DashboardState.__init__(ctx)`: loads `"items_config"` from panel
state (a missing or empty value yields an empty collection) and parses
each stored dict.  `none` models a raised `ValueError`. -/
def DashboardState.init (panel : Panel) : Option DashboardState :=
  match panel.items_config with
  | none => some { _items := [], _data := [] }
  | some items => (parseItems items).map fun l => { _items := l, _data := [] }

/-- `DashboardState.items_as_dict`. -/
def items_as_dict (items : List (String × DashboardPlotItem)) : ItemsConfig :=
  items.map fun kv => (kv.1, kv.2.to_dict)

/-- `DashboardState.apply_state`: `set_state("items_config", ...)`. -/
def apply_state (ds : DashboardState) (panel : Panel) : Panel :=
  { panel with items_config := some (items_as_dict ds._items) }

/-- The render-data path `f"items.{k}"` of widget `k`. -/
def dataPath (k : String) : String :=
  "items." ++ k

/-- `DashboardState.apply_data`: `batch_set_data({f"items.{k}": v ...})`. -/
def apply_data (ds : DashboardState) (panel : Panel) : Panel :=
  { panel with data := dsetAll panel.data (ds._data.map fun kv => (dataPath kv.1, kv.2)) }

/-- `DashboardState.get_next_item_id`, with the draw of
`random.randint(0, 1000)` made explicit as the argument `r`. -/
def get_next_item_id (r : Nat) : String :=
  "plot_" ++ toString r

/-! ### Data loaders (`DashboardState.load_*`) -/

/-- `DashboardState.load_categorical_histogram_data`. -/
def load_categorical_histogram_data (view : HostView) (item : DashboardPlotItem) :
    Payload :=
  match item.field with
  | none => []
  | some f =>
      if f = "" then []
      else
        let counts := view.count_values f
        [("x", PVal.strList (counts.map Prod.fst)),
         ("y", PVal.intList (counts.map Prod.snd)),
         ("type", PVal.str "bar")]

/-- `DashboardState.load_numeric_histogram_data`: reshapes the
`(counts, edges)` pair into a bar payload with left edges and widths. -/
def load_numeric_histogram_data (view : HostView) (item : DashboardPlotItem) :
    Payload :=
  match item.x_field with
  | none => []
  | some x =>
      if x = "" then []
      else
        let ce := view.histogram_values x item.bins
        let counts := ce.1
        let edges := ce.2
        let left_edges := edges.dropLast
        let widths := List.zipWith (fun a b => a - b) edges.tail edges.dropLast
        [("x", PVal.ratList left_edges),
         ("y", PVal.ratList counts),
         ("type", PVal.str "bar"),
         ("width", PVal.ratList widths)]

/-- `DashboardState.load_scatter_data`. -/
def load_scatter_data (view : HostView) (item : DashboardPlotItem) : Payload :=
  let x := view.values item.x_field
  let y := view.values item.y_field
  let ids := view.values_id
  if x = [] ∨ y = [] then []
  else
    [("x", PVal.ratList x),
     ("y", PVal.ratList y),
     ("ids", PVal.strList ids),
     ("type", PVal.str "scatter"),
     ("mode", PVal.str "markers")]

/-- `DashboardState.load_line_data`. -/
def load_line_data (view : HostView) (item : DashboardPlotItem) : Payload :=
  if item.x_field = none ∨ item.y_field = none then []
  else
    [("x", PVal.ratList (view.values item.x_field)),
     ("y", PVal.ratList (view.values item.y_field)),
     ("type", PVal.str "line")]

/-- `DashboardState.load_pie_data`: rescales counts to percentages. -/
def load_pie_data (view : HostView) (item : DashboardPlotItem) : Payload :=
  match item.field with
  | none => []
  | some f =>
      if f = "" then []
      else
        let counts := view.count_values f
        let values := counts.map Prod.snd
        let keys := counts.map Prod.fst
        let s : ℚ := (values.sum : Int)
        let factor : ℚ := 100 / s
        let factored_values := values.map fun v => (v : ℚ) * factor
        [("values", PVal.ratList factored_values),
         ("labels", PVal.strList keys),
         ("type", PVal.str "pie"),
         ("name", PVal.str ((dget item.config "title").getD "Pie Chart"))]

/-- `DashboardState.load_data_from_code`: a falsy (missing or empty)
snippet yields `{}`; a raising `exec` is caught and yields `{}`;
otherwise the snippet's `data` dict gets its `"type"` key overwritten
with the plotly type of the chart kind. -/
def load_data_from_code (view : HostView) (code : Option String)
    (plot_type : PlotType) : Payload :=
  match code with
  | none => []
  | some c =>
      if c = "" then []
      else
        match view.code_exec c with
        | none => []
        | some data => dset data "type" (PVal.str (get_plotly_plot_type plot_type).value)

/-- `DashboardState.load_plot_data_for_item`: `use_code` alone selects
snippet-driven loading; otherwise the chart kind selects the adapter. -/
def load_plot_data_for_item (view : HostView) (item : DashboardPlotItem) : Payload :=
  if item.use_code then load_data_from_code view item.code item.type
  else
    match item.type with
    | .categorical_histogram => load_categorical_histogram_data view item
    | .numeric_histogram => load_numeric_histogram_data view item
    | .scatter => load_scatter_data view item
    | .line => load_line_data view item
    | .pie => load_pie_data view item

/-- `DashboardState.load_plot_data(plot_id)`. -/
def load_plot_data (view : HostView) (ds : DashboardState) (plot_id : String) :
    Payload :=
  match dget ds._items plot_id with
  | none => []
  | some item => load_plot_data_for_item view item

/-! ### DashboardState mutations and the context manager -/

/-- `DashboardState.add_plot`: keys the item by its name, loads its data
and pushes the data store (`apply_data`). -/
def add_plot (view : HostView) (ds : DashboardState) (item : DashboardPlotItem)
    (panel : Panel) : DashboardState × Panel :=
  let items := dset ds._items item.name item
  let data := load_plot_data_for_item view item
  let ds2 : DashboardState := { _items := items, _data := dset ds._data item.name data }
  (ds2, apply_data ds2 panel)

/-- `DashboardState.edit_plot`: identical body to `add_plot`. -/
def edit_plot (view : HostView) (ds : DashboardState) (item : DashboardPlotItem)
    (panel : Panel) : DashboardState × Panel :=
  let items := dset ds._items item.name item
  let data := load_plot_data_for_item view item
  let ds2 : DashboardState := { _items := items, _data := dset ds._data item.name data }
  (ds2, apply_data ds2 panel)

/-- `DashboardState.remove_item`: `self._items.pop(item_id)`; the error
is the `KeyError` of popping an absent key. -/
def remove_item (ds : DashboardState) (item_id : String) :
    Except PyErr DashboardState :=
  if (dget ds._items item_id).isSome then
    .ok { ds with _items := dpop ds._items item_id }
  else .error .keyError

/-- The `with DashboardState(ctx) as dashboard_state:` combinator.
`body` receives the freshly constructed state and the panel, and returns
the state and panel as they stand when the block finishes or raises,
together with the raised error if any.  `__exit__` first runs
`apply_state` on the final state and then returns `True`, so a raised
error never propagates; only a `ValueError` from the constructor
(outside the managed block) escapes. -/
def run_with_dashboard (panel : Panel)
    (body : DashboardState → Panel → DashboardState × Panel × Option PyErr) :
    Except PyErr Panel :=
  match DashboardState.init panel with
  | none => .error .valueError
  | some ds =>
      let r := body ds panel
      let panel2 := apply_state r.1 r.2.1
      match r.2.2 with
      | some _ => .ok panel2
      | none => .ok panel2

/-! ### Permission gating and panel event handlers -/

/-- A Teams user record (`ctx.user`). -/
structure User where
  dataset_permission : String
deriving DecidableEq, Repr

/-- The execution context as `can_edit` sees it: `user = none` models an
OSS context without the `user` attribute, `some none` a present but
`None` user, `some (some u)` a logged-in Teams user. -/
structure Ctx where
  user : Option (Option User)
deriving DecidableEq, Repr

/-- `can_edit(ctx)`. -/
def can_edit (ctx : Ctx) : Bool :=
  match ctx.user with
  | none => true
  | some none => false
  | some (some u) => u.dataset_permission == "can_edit"

/-- The item built inside `handle_plot_change` from the prompt result:
`none` models the `ValueError` of `PlotType(result.get("plot_type"))`. -/
def mk_plot_item (result : PlotParams) (name : String) : Option DashboardPlotItem :=
  let p := get_plotly_config_and_layout result
  (result.plot_type.bind PlotType.ofString).map fun t =>
    { name := name,
      type := t,
      config := p.1,
      layout := p.2,
      raw_params := some result,
      use_code := result.use_code.getD false,
      code := result.code,
      update_on_change := result.update_on_change,
      x_field := result.x_field,
      y_field := result.y_field,
      field := result.field,
      bins := result.bins.getD 10 }

/-- `CustomDashboard.handle_plot_change(ctx, edit)`: runs inside
`with DashboardState(ctx)`.  `r` is the `random.randint(0, 1000)` draw
used by `get_next_item_id` when the result carries no name. -/
def handle_plot_change (view : HostView) (result : PlotParams) (r : Nat)
    (edit : Bool) (panel : Panel) : Except PyErr Panel :=
  run_with_dashboard panel fun ds panel0 =>
    let name := result.name.getD (get_next_item_id r)
    match mk_plot_item result name with
    | none => (ds, panel0, some PyErr.valueError)
    | some item =>
        let dp := if edit then edit_plot view ds item panel0 else add_plot view ds item panel0
        (dp.1, dp.2, none)

/-- `CustomDashboard.on_configure_plot` (the `on_success` of "add"). -/
def on_configure_plot (view : HostView) (result : PlotParams) (r : Nat)
    (panel : Panel) : Except PyErr Panel :=
  handle_plot_change view result r false panel

/-- `CustomDashboard.on_edit_success` (the `on_success` of "edit"). -/
def on_edit_success (view : HostView) (result : PlotParams) (r : Nat)
    (panel : Panel) : Except PyErr Panel :=
  handle_plot_change view result r true panel

/-- `CustomDashboard.on_remove`: gated by `can_edit`; the `pop` of an
absent id raises inside the `with` block and is suppressed by
`__exit__` after `apply_state`. -/
def on_remove (ctx : Ctx) (plot_id : String) (panel : Panel) : Except PyErr Panel :=
  if can_edit ctx then
    run_with_dashboard panel fun ds panel0 =>
      match remove_item ds plot_id with
      | .ok ds2 => (ds2, panel0, none)
      | .error e => (ds, panel0, some e)
  else .ok panel

/-- The per-item refresh loop of `CustomDashboard.on_change_view`:
items whose `update_on_change` is truthy get their data recomputed into
`_data`, keyed by `item.name`. -/
def refreshStep (view : HostView) (ds : DashboardState)
    (d : List (String × Payload)) (kv : String × DashboardPlotItem) :
    List (String × Payload) :=
  if kv.2.update_on_change = some true then
    dset d kv.2.name (load_plot_data view ds kv.2.name)
  else d

/-- The refresh loop itself: a fold of `refreshStep` over the items. -/
def refreshData (view : HostView) (ds : DashboardState) : List (String × Payload) :=
  ds._items.foldl (refreshStep view ds) ds._data

/-- `CustomDashboard.on_change_view`: recomputes flagged items and calls
`apply_data`; it never touches `"items_config"`. -/
def on_change_view (view : HostView) (panel : Panel) : Except PyErr Panel :=
  match DashboardState.init panel with
  | none => .error .valueError
  | some ds => .ok (apply_data { ds with _data := refreshData view ds } panel)

/-- A `ctx.prompt` request for the configure-plot operator. -/
structure PromptRequest where
  uri : String
  params : Option PlotParams
deriving DecidableEq, Repr

/-- `CustomDashboard.on_add`: prompts only when `can_edit`. -/
def on_add (ctx : Ctx) : Option PromptRequest :=
  if can_edit ctx then
    some { uri := "@voxel51/custom_dashboard/configure_plot", params := none }
  else none

/-- `CustomDashboard.on_edit`: looks the item up, returns silently when
absent, prompts only when `can_edit`; the error models the `TypeError`
of splatting a `None` `raw_params`. -/
def on_edit (ctx : Ctx) (plot_id : Option String) (panel : Panel) :
    Except PyErr (Option PromptRequest) :=
  match DashboardState.init panel with
  | none => .error .valueError
  | some ds =>
      match plot_id with
      | none => .ok none
      | some pid =>
          match dget ds._items pid with
          | none => .ok none
          | some item =>
              if can_edit ctx then
                match item.to_configure_plot_params with
                | none => .error .typeError
                | some ps =>
                    .ok (some { uri := "@voxel51/custom_dashboard/configure_plot",
                                params := some ps })
              else .ok none

/-- The `DashboardView` arguments set by `render_dashboard`. -/
structure DashboardViewProps where
  allow_add : Bool
  allow_edit : Bool
  allow_remove : Bool
  height : Option Nat
deriving DecidableEq, Repr

/-- `CustomDashboard.render_dashboard`: the all-three `allow_*` flags are
the single `can_edit(ctx)` value. -/
def render_dashboard (ctx : Ctx) (panel : Panel) :
    Except PyErr DashboardViewProps :=
  match DashboardState.init panel with
  | none => .error .valueError
  | some ds =>
      let user_can_edit := can_edit ctx
      .ok { allow_add := user_can_edit,
            allow_edit := user_can_edit,
            allow_remove := user_can_edit,
            height := if ds._items.isEmpty then some 100 else none }

/-! ### Concrete instances used by witnesses and counterexamples -/

/-- A small concrete host view. -/
def cView : HostView :=
  { count_values := fun _ => [("a", 2), ("b", 3)],
    histogram_values := fun _ _ => ([3, 5], [0, 1/2, 1]),
    values := fun _ => [1, 2],
    values_id := ["i1", "i2"],
    code_exec := fun _ => some [("x", PVal.ratList [1])] }

/-- Configure-plot params with every key absent. -/
def cParams : PlotParams :=
  { name := none, plot_type := none, plot_title := none, color := none,
    xaxis := none, yaxis := none, use_code := none, code := none,
    update_on_change := none, x_field := none, y_field := none,
    field := none, bins := none }

/-- A nameless pie-chart configure result. -/
def cResultPie : PlotParams :=
  { cParams with plot_type := some "pie", field := some "f" }

/-- A pie widget stored under the generated name `plot_5`. -/
def cItemPie : DashboardPlotItem :=
  { name := "plot_5", type := .pie, config := [], layout := PlotLayout.empty,
    raw_params := some cParams, use_code := false, code := none,
    update_on_change := some true, x_field := none, y_field := none,
    field := some "f", bins := 10 }

/-- A panel holding the single widget `plot_5`. -/
def cPanel : Panel :=
  { items_config := some [("plot_5", cItemPie.to_dict)], data := [] }

/-- The dashboard state loaded from `cPanel`. -/
def cDs : DashboardState :=
  { _items := [("plot_5", cItemPie)], _data := [] }

/-- A stored item dict with the `bins` and `use_code` keys absent. -/
def cDict9 : ItemDict :=
  { name := "a", type := some "pie", config := some [], layout := some PlotLayout.empty,
    raw_params := none, use_code := none, code := none, update_on_change := none,
    x_field := none, y_field := none, field := none, bins := none }

/-- A panel whose stored collection is not a complete serialization. -/
def cPanel9 : Panel :=
  { items_config := some [("a", cDict9)], data := [] }

/-- An OSS context: no `user` attribute. -/
def ctxOSS : Ctx :=
  { user := none }

/-- A numeric-histogram widget bound to field `conf`. -/
def cItemHist : DashboardPlotItem :=
  { name := "h", type := .numeric_histogram, config := [], layout := PlotLayout.empty,
    raw_params := none, use_code := false, code := none, update_on_change := none,
    x_field := some "conf", y_field := none, field := none, bins := 2 }

/-- A snippet-driven line widget. -/
def cItemCode : DashboardPlotItem :=
  { name := "c", type := .line, config := [], layout := PlotLayout.empty,
    raw_params := none, use_code := true, code := some "data = 1",
    update_on_change := none, x_field := some "xf", y_field := some "yf",
    field := none, bins := 10 }

deriving instance DecidableEq for Except

/-! ### Shared lemmas about the embedding -/

theorem PlotType.ofString_value (t : PlotType) : PlotType.ofString t.value = some t := by
  cases t <;> rfl

theorem roundtrip_item (it : DashboardPlotItem) :
    DashboardPlotItem.from_dict it.to_dict = some it := by
  simp [DashboardPlotItem.from_dict, DashboardPlotItem.to_dict, PlotType.ofString_value]

theorem parse_items_as_dict (items : List (String × DashboardPlotItem)) :
    parseItems (items_as_dict items) = some items := by
  induction items with
  | nil => rfl
  | cons hd tl ih =>
      simp [items_as_dict, parseItems, roundtrip_item hd.2] at *
      simp [ih]

theorem init_items_as_dict (panel : Panel) (items : List (String × DashboardPlotItem)) :
    DashboardState.init { panel with items_config := some (items_as_dict items) } =
      some { _items := items, _data := [] } := by
  simp [DashboardState.init, parse_items_as_dict]

theorem init_data_nil (panel : Panel) (ds : DashboardState)
    (h : DashboardState.init panel = some ds) : ds._data = [] := by
  cases hic : panel.items_config with
  | none =>
      simp only [DashboardState.init, hic, Option.some.injEq] at h
      rw [← h]
  | some items =>
      simp only [DashboardState.init, hic] at h
      cases hp : parseItems items with
      | none => rw [hp] at h; simp at h
      | some l =>
          rw [hp] at h
          simp only [Option.map_some', Option.some.injEq] at h
          rw [← h]

theorem keys_items_as_dict (items : List (String × DashboardPlotItem)) :
    (items_as_dict items).map Prod.fst = items.map Prod.fst := by
  induction items with
  | nil => rfl
  | cons hd tl ih => simp [items_as_dict]

theorem dataPath_injective : Function.Injective dataPath := by
  intro a b h
  have hd := congrArg String.data h
  simp [dataPath, String.data_append] at hd
  exact String.ext hd

theorem dropLast_zipWith_getElem (l : List ℚ) (i : Nat) (a b : ℚ)
    (h1 : l[i]? = some a) (h2 : l[i+1]? = some b) :
    l.dropLast[i]? = some a ∧
      (List.zipWith (fun c d => c - d) l.tail l.dropLast)[i]? = some (b - a) := by
  have hlen : i + 1 < l.length := by
    by_contra hc
    push_neg at hc
    rw [List.getElem?_eq_none hc] at h2
    cases h2
  have hdrop : l.dropLast[i]? = some a := by
    rw [List.getElem?_dropLast, if_pos (by omega)]
    exact h1
  refine ⟨hdrop, ?_⟩
  have htail : l.tail[i]? = some b := by
    rw [List.getElem?_tail]
    exact h2
  rw [List.getElem?_zipWith]
  simp [htail, hdrop]

theorem refresh_foldl_stable (view : HostView) (ds : DashboardState)
    (l : List (String × DashboardPlotItem)) :
    ∀ (d0 : List (String × Payload)) (k : String),
      (∀ kv ∈ l, kv.2.update_on_change = some true → kv.2.name ≠ k) →
      dget (l.foldl (refreshStep view ds) d0) k = dget d0 k := by
  induction l with
  | nil => intro d0 k _; rfl
  | cons hd tl ih =>
      intro d0 k hstable
      rw [List.foldl_cons]
      by_cases hflag : hd.2.update_on_change = some true
      · rw [show refreshStep view ds d0 hd =
            dset d0 hd.2.name (load_plot_data view ds hd.2.name) from by
          simp [refreshStep, hflag]]
        rw [ih _ k (fun kv hkv => hstable kv (List.mem_cons_of_mem hd hkv))]
        exact dget_dset_ne d0 hd.2.name k _ (fun hh => hstable hd (List.mem_cons_self hd tl) hflag hh.symm)
      · rw [show refreshStep view ds d0 hd = d0 from by simp [refreshStep, hflag]]
        exact ih d0 k (fun kv hkv => hstable kv (List.mem_cons_of_mem hd hkv))

theorem refresh_foldl_keys (view : HostView) (ds : DashboardState)
    (l : List (String × DashboardPlotItem)) :
    ∀ (d0 : List (String × Payload)) (k : String),
      k ∈ (l.foldl (refreshStep view ds) d0).map Prod.fst →
      k ∈ d0.map Prod.fst ∨
        ∃ kv, kv ∈ l ∧ kv.2.update_on_change = some true ∧ kv.2.name = k := by
  induction l with
  | nil => intro d0 k hk; exact Or.inl hk
  | cons hd tl ih =>
      intro d0 k hk
      rw [List.foldl_cons] at hk
      rcases ih _ k hk with h | ⟨kv, hkv, hf, hn⟩
      · by_cases hflag : hd.2.update_on_change = some true
        · rw [show refreshStep view ds d0 hd =
              dset d0 hd.2.name (load_plot_data view ds hd.2.name) from by
            simp [refreshStep, hflag]] at h
          rw [keys_dset] at h
          by_cases hmem : hd.2.name ∈ d0.map Prod.fst
          · rw [if_pos hmem] at h
            exact Or.inl h
          · rw [if_neg hmem] at h
            rcases List.mem_append.mp h with h1 | h1
            · exact Or.inl h1
            · rw [List.mem_singleton] at h1
              exact Or.inr ⟨hd, List.mem_cons_self hd tl, hflag, h1.symm⟩
        · rw [show refreshStep view ds d0 hd = d0 from by simp [refreshStep, hflag]] at h
          exact Or.inl h
      · exact Or.inr ⟨kv, List.mem_cons_of_mem hd hkv, hf, hn⟩

theorem refresh_foldl_keys_nodup (view : HostView) (ds : DashboardState)
    (l : List (String × DashboardPlotItem)) :
    ∀ (d0 : List (String × Payload)), (d0.map Prod.fst).Nodup →
      ((l.foldl (refreshStep view ds) d0).map Prod.fst).Nodup := by
  induction l with
  | nil => intro d0 h; exact h
  | cons hd tl ih =>
      intro d0 h
      rw [List.foldl_cons]
      apply ih
      by_cases hflag : hd.2.update_on_change = some true
      · rw [show refreshStep view ds d0 hd =
            dset d0 hd.2.name (load_plot_data view ds hd.2.name) from by
          simp [refreshStep, hflag]]
        exact keys_dset_nodup d0 _ _ h
      · rw [show refreshStep view ds d0 hd = d0 from by simp [refreshStep, hflag]]
        exact h

theorem refresh_foldl_flagged (view : HostView) (ds : DashboardState)
    (l : List (String × DashboardPlotItem)) :
    ∀ (d0 : List (String × Payload)) (k : String) (item : DashboardPlotItem),
      (k, item) ∈ l → item.update_on_change = some true →
      (l.map fun kv => kv.2.name).Nodup →
      dget (l.foldl (refreshStep view ds) d0) item.name =
        some (load_plot_data view ds item.name) := by
  induction l with
  | nil => intro d0 k item hmem; simp at hmem
  | cons hd tl ih =>
      intro d0 k item hmem hflag hnd
      rw [List.map_cons, List.nodup_cons] at hnd
      rw [List.foldl_cons]
      rcases List.mem_cons.mp hmem with heq | hmem'
      · have hhd2 : hd.2 = item := by rw [← heq]
        have hstep : refreshStep view ds d0 hd =
            dset d0 item.name (load_plot_data view ds item.name) := by
          simp [refreshStep, hhd2, hflag]
        rw [hstep]
        rw [refresh_foldl_stable view ds tl _ item.name
          (fun kv hkv _ hh =>
            hnd.1 (by rw [hhd2, ← hh]; exact List.mem_map.mpr ⟨kv, hkv, rfl⟩))]
        exact dget_dset_self d0 item.name _
      · exact ih _ k item hmem' hflag hnd.2

/-! ### The claims -/

/-- C3: Serialization round-trips: `from_dict (to_dict item)` reconstructs
every stored attribute of the item, and loading a panel whose
`"items_config"` is the serialization of a collection (as
`DashboardState.__init__` does) reconstructs the same collection. -/
theorem spec_C3 :
    (∀ it : DashboardPlotItem, DashboardPlotItem.from_dict it.to_dict = some it) ∧
    (∀ (panel : Panel) (items : List (String × DashboardPlotItem)),
      DashboardState.init { panel with items_config := some (items_as_dict items) } =
        some { _items := items, _data := [] }) :=
  ⟨roundtrip_item, init_items_as_dict⟩

/-- C5: `use_code` alone selects the loading mode in
`load_plot_data_for_item`: when true the payload comes from the stored
snippet and the chart kind only (field bindings are ignored); when false
the adapter is chosen by the chart kind. -/
theorem spec_C5 (view : HostView) (item : DashboardPlotItem) :
    (item.use_code = true →
      load_plot_data_for_item view item = load_data_from_code view item.code item.type) ∧
    (item.use_code = false →
      (item.type = PlotType.categorical_histogram →
        load_plot_data_for_item view item = load_categorical_histogram_data view item) ∧
      (item.type = PlotType.numeric_histogram →
        load_plot_data_for_item view item = load_numeric_histogram_data view item) ∧
      (item.type = PlotType.scatter →
        load_plot_data_for_item view item = load_scatter_data view item) ∧
      (item.type = PlotType.line →
        load_plot_data_for_item view item = load_line_data view item) ∧
      (item.type = PlotType.pie →
        load_plot_data_for_item view item = load_pie_data view item)) := by
  constructor
  · intro h
    simp [load_plot_data_for_item, h]
  · intro h
    refine ⟨?_, ?_, ?_, ?_, ?_⟩ <;> intro ht <;> simp [load_plot_data_for_item, h, ht]

/-- Witness for C5 at a concrete snippet-driven widget. -/
theorem spec_C5_witness :
    load_plot_data_for_item cView cItemCode =
      load_data_from_code cView cItemCode.code cItemCode.type :=
  (spec_C5 cView cItemCode).1 rfl

/-- C7: `apply_state` writes a function of the widget configurations only
(no payload data), leaves the render-data store alone, and `apply_data`
leaves `"items_config"` alone and writes only under `items.<name>`
render-data paths. -/
theorem spec_C7 :
    (∀ (items : List (String × DashboardPlotItem)) (d1 d2 : List (String × Payload))
        (panel : Panel),
      apply_state { _items := items, _data := d1 } panel =
        apply_state { _items := items, _data := d2 } panel) ∧
    (∀ (ds : DashboardState) (panel : Panel), (apply_state ds panel).data = panel.data) ∧
    (∀ (ds : DashboardState) (panel : Panel),
      (apply_state ds panel).items_config = some (items_as_dict ds._items)) ∧
    (∀ (ds : DashboardState) (panel : Panel),
      (apply_data ds panel).items_config = panel.items_config) ∧
    (∀ (ds : DashboardState) (panel : Panel) (p : String),
      (∀ k, k ∈ ds._data.map Prod.fst → dataPath k ≠ p) →
      dget (apply_data ds panel).data p = dget panel.data p) := by
  refine ⟨fun _ _ _ _ => rfl, fun _ _ => rfl, fun _ _ => rfl, fun _ _ => rfl, ?_⟩
  intro ds panel p hp
  show dget (dsetAll panel.data (ds._data.map fun kv => (dataPath kv.1, kv.2))) p =
    dget panel.data p
  apply dget_dsetAll_not_mem
  intro hmem
  rw [List.map_map] at hmem
  rcases List.mem_map.mp hmem with ⟨kv, hkv, heq⟩
  exact hp kv.1 (List.mem_map.mpr ⟨kv, hkv, rfl⟩) heq

/-- A dashboard state with one pending data entry, for the C7 witness. -/
def cDsData : DashboardState :=
  { _items := [], _data := [("a", [("x", PVal.str "v")])] }

/-- Witness for C7 at a path that is not a render-data path. -/
theorem spec_C7_witness :
    dget (apply_data cDsData cPanel).data "other" = dget cPanel.data "other" :=
  spec_C7.2.2.2.2 cDsData cPanel "other"
    (by intro k hk; simp [cDsData] at hk; subst hk; decide)

/-- C8: the chart kind is confined to the five enumeration values:
`PlotType` lookup succeeds exactly on the five member strings, item
construction (via `from_dict` or `handle_plot_change`'s `mk_plot_item`)
fails on any other type, and every widget of a loaded `DashboardState`
carries one of the five values. -/
theorem spec_C8 :
    (∀ s : String, (PlotType.ofString s).isSome ↔
      s = "categorical_histogram" ∨ s = "numeric_histogram" ∨ s = "line" ∨
        s = "scatter" ∨ s = "pie") ∧
    (∀ d : ItemDict, d.type.bind PlotType.ofString = none →
      DashboardPlotItem.from_dict d = none) ∧
    (∀ (result : PlotParams) (name : String),
      result.plot_type.bind PlotType.ofString = none → mk_plot_item result name = none) ∧
    (∀ (panel : Panel) (ds : DashboardState), DashboardState.init panel = some ds →
      ∀ kv ∈ ds._items, kv.2.type.value = "categorical_histogram" ∨
        kv.2.type.value = "numeric_histogram" ∨ kv.2.type.value = "line" ∨
        kv.2.type.value = "scatter" ∨ kv.2.type.value = "pie") := by
  refine ⟨?_, ?_, ?_, ?_⟩
  · intro s
    unfold PlotType.ofString
    split_ifs with h1 h2 h3 h4 h5 <;> simp_all
  · intro d h
    simp [DashboardPlotItem.from_dict, h]
  · intro result name h
    simp [mk_plot_item, h]
  · intro panel ds _ kv _
    cases htype : kv.2.type <;> simp [PlotType.value, htype]

/-- Witness for C8 at the loaded collection of `cPanel`. -/
theorem spec_C8_witness :
    cItemPie.type.value = "categorical_histogram" ∨
    cItemPie.type.value = "numeric_histogram" ∨ cItemPie.type.value = "line" ∨
    cItemPie.type.value = "scatter" ∨ cItemPie.type.value = "pie" :=
  spec_C8.2.2.2 cPanel cDs (by decide) ("plot_5", cItemPie) (by decide)

/-- C10: the three mutating entry points are gated by the single
`can_edit` predicate (true in OSS, otherwise truthy user with
`dataset_permission == "can_edit"`), and `render_dashboard` passes that
same value as all three `allow_*` flags. -/
theorem spec_C10 :
    (can_edit { user := none } = true) ∧
    (can_edit { user := some none } = false) ∧
    (∀ u : User, can_edit { user := some (some u) } =
      (u.dataset_permission == "can_edit")) ∧
    (∀ ctx : Ctx, (on_add ctx).isSome = can_edit ctx) ∧
    (∀ (ctx : Ctx) (pid : Option String) (panel : Panel) (req : PromptRequest),
      on_edit ctx pid panel = .ok (some req) → can_edit ctx = true) ∧
    (∀ (ctx : Ctx) (pid : String) (panel : Panel), can_edit ctx = false →
      on_remove ctx pid panel = .ok panel) ∧
    (∀ (ctx : Ctx) (panel : Panel) (ds : DashboardState),
      DashboardState.init panel = some ds →
      render_dashboard ctx panel =
        .ok { allow_add := can_edit ctx, allow_edit := can_edit ctx,
              allow_remove := can_edit ctx,
              height := if ds._items.isEmpty then some 100 else none }) := by
  refine ⟨rfl, rfl, fun u => rfl, ?_, ?_, ?_, ?_⟩
  · intro ctx
    cases h : can_edit ctx <;> simp [on_add, h]
  · intro ctx pid panel req h
    cases hce : can_edit ctx
    · exfalso
      unfold on_edit at h
      split at h
      · exact Except.noConfusion h
      · split at h
        · simp at h
        · split at h
          · simp at h
          · rw [hce] at h
            simp at h
    · rfl
  · intro ctx pid panel h
    simp [on_remove, h]
  · intro ctx panel ds h
    simp [render_dashboard, h]

/-- Witness for C10 at the OSS context and `cPanel`. -/
theorem spec_C10_witness :
    render_dashboard ctxOSS cPanel =
      .ok { allow_add := can_edit ctxOSS, allow_edit := can_edit ctxOSS,
            allow_remove := can_edit ctxOSS,
            height := if cDs._items.isEmpty then some 100 else none } :=
  spec_C10.2.2.2.2.2.2 ctxOSS cPanel cDs (by decide)

/-- C1: every completed add/edit (`handle_plot_change`) and remove
(`on_remove`) invocation leaves the host panel state key
`"items_config"` equal to the serialization (`to_dict` per item) of the
full post-mutation widget collection. -/
theorem spec_C1 (view : HostView) (result : PlotParams) (r : Nat) (edit : Bool)
    (panel : Panel) (ds : DashboardState)
    (h : DashboardState.init panel = some ds) :
    ((handle_plot_change view result r edit panel).map (fun p => p.items_config) =
      .ok (some (items_as_dict
        (match mk_plot_item result (result.name.getD (get_next_item_id r)) with
         | none => ds._items
         | some item => dset ds._items item.name item)))) ∧
    (∀ (ctx : Ctx) (plot_id : String), can_edit ctx = true →
      (on_remove ctx plot_id panel).map (fun p => p.items_config) =
        .ok (some (items_as_dict (dpop ds._items plot_id)))) := by
  constructor
  · unfold handle_plot_change run_with_dashboard
    rw [h]
    cases hmk : mk_plot_item result (result.name.getD (get_next_item_id r)) with
    | none => simp [hmk, apply_state, Except.map]
    | some item =>
        cases edit <;>
          simp [hmk, add_plot, edit_plot, apply_state, apply_data, Except.map]
  · intro ctx plot_id hce
    unfold on_remove run_with_dashboard
    rw [hce]
    simp only [if_true]
    rw [h]
    cases hget : dget ds._items plot_id with
    | none =>
        rw [dpop_of_dget_none ds._items plot_id hget]
        simp [remove_item, hget, apply_state, Except.map]
    | some it =>
        simp [remove_item, hget, apply_state, Except.map]

/-- Witness for C1: removing the present widget of `cPanel`. -/
theorem spec_C1_witness :
    (on_remove ctxOSS "plot_5" cPanel).map (fun p => p.items_config) =
      .ok (some (items_as_dict (dpop cDs._items "plot_5"))) :=
  (spec_C1 cView cResultPie 5 false cPanel cDs (by decide)).2 ctxOSS "plot_5" rfl

/-- C2 counterexample: with the widget `plot_5` stored and the random
draw equal to 5, the generated name `plot_5` is NOT distinct from the
existing widget's name, and the nameless add leaves the item count at 1
instead of increasing it. -/
theorem spec_C2_counterexample :
    get_next_item_id 5 = "plot_5" ∧
    (DashboardState.init cPanel).map (fun ds => ds._items.map Prod.fst) =
      some ["plot_5"] ∧
    cResultPie.name = none ∧
    (handle_plot_change cView cResultPie 5 false cPanel).map
        (fun p => p.items_config.map (fun cfg => cfg.map Prod.fst)) =
      .ok (some ["plot_5"]) ∧
    (handle_plot_change cView cResultPie 5 false cPanel).map
        (fun p => p.items_config.map List.length) = .ok (some 1) := by
  refine ⟨by decide, by decide, rfl, by decide, by decide⟩

/-- C2 (amended): a nameless add stores the generated name `plot_<r>` as
the collection key; the stored keys stay duplicate-free, but the add
increases the item count by one only when `plot_<r>` does not already
name a widget — when it does, the existing widget is replaced and the
count is unchanged. -/
theorem spec_C2_amended (view : HostView) (result : PlotParams) (r : Nat)
    (panel : Panel) (ds : DashboardState)
    (h : DashboardState.init panel = some ds)
    (hname : result.name = none)
    (hmk : (result.plot_type.bind PlotType.ofString).isSome)
    (hkeys : (ds._items.map Prod.fst).Nodup) :
    ((handle_plot_change view result r false panel).map
        (fun p => p.items_config.map (fun cfg => cfg.map Prod.fst)) =
      .ok (some (if get_next_item_id r ∈ ds._items.map Prod.fst
                 then ds._items.map Prod.fst
                 else ds._items.map Prod.fst ++ [get_next_item_id r]))) ∧
    (if get_next_item_id r ∈ ds._items.map Prod.fst
     then ds._items.map Prod.fst
     else ds._items.map Prod.fst ++ [get_next_item_id r]).Nodup ∧
    ((handle_plot_change view result r false panel).map
        (fun p => p.items_config.map List.length) =
      .ok (some (if get_next_item_id r ∈ ds._items.map Prod.fst
                 then ds._items.length else ds._items.length + 1))) := by
  rcases Option.isSome_iff_exists.mp hmk with ⟨t, ht⟩
  have hmk2 : mk_plot_item result (get_next_item_id r) =
      some { name := get_next_item_id r, type := t,
             config := (get_plotly_config_and_layout result).1,
             layout := (get_plotly_config_and_layout result).2,
             raw_params := some result,
             use_code := result.use_code.getD false,
             code := result.code,
             update_on_change := result.update_on_change,
             x_field := result.x_field,
             y_field := result.y_field,
             field := result.field,
             bins := result.bins.getD 10 } := by
    simp [mk_plot_item, ht]
  have hrun : (handle_plot_change view result r false panel).map
      (fun p => p.items_config) =
      .ok (some (items_as_dict (dset ds._items (get_next_item_id r)
        { name := get_next_item_id r, type := t,
          config := (get_plotly_config_and_layout result).1,
          layout := (get_plotly_config_and_layout result).2,
          raw_params := some result,
          use_code := result.use_code.getD false,
          code := result.code,
          update_on_change := result.update_on_change,
          x_field := result.x_field,
          y_field := result.y_field,
          field := result.field,
          bins := result.bins.getD 10 }))) := by
    unfold handle_plot_change run_with_dashboard
    rw [h]
    simp [hname, hmk2, add_plot, apply_state, apply_data, Except.map]
  refine ⟨?_, ?_, ?_⟩
  · cases hhp : handle_plot_change view result r false panel with
    | error e => rw [hhp] at hrun; simp [Except.map] at hrun
    | ok p =>
        rw [hhp] at hrun
        simp only [Except.map, Except.ok.injEq] at hrun
        simp only [Except.map, Except.ok.injEq]
        rw [hrun]
        simp only [Option.map_some', Option.some.injEq]
        rw [keys_items_as_dict, keys_dset]
  · rw [← keys_dset ds._items (get_next_item_id r)
      { name := get_next_item_id r, type := t,
        config := (get_plotly_config_and_layout result).1,
        layout := (get_plotly_config_and_layout result).2,
        raw_params := some result,
        use_code := result.use_code.getD false,
        code := result.code,
        update_on_change := result.update_on_change,
        x_field := result.x_field,
        y_field := result.y_field,
        field := result.field,
        bins := result.bins.getD 10 }]
    exact keys_dset_nodup ds._items _ _ hkeys
  · cases hhp : handle_plot_change view result r false panel with
    | error e => rw [hhp] at hrun; simp [Except.map] at hrun
    | ok p =>
        rw [hhp] at hrun
        simp only [Except.map, Except.ok.injEq] at hrun
        simp only [Except.map, Except.ok.injEq]
        rw [hrun]
        simp only [Option.map_some', Option.some.injEq]
        have hlen : (items_as_dict (dset ds._items (get_next_item_id r)
            { name := get_next_item_id r, type := t,
              config := (get_plotly_config_and_layout result).1,
              layout := (get_plotly_config_and_layout result).2,
              raw_params := some result,
              use_code := result.use_code.getD false,
              code := result.code,
              update_on_change := result.update_on_change,
              x_field := result.x_field,
              y_field := result.y_field,
              field := result.field,
              bins := result.bins.getD 10 })).length =
            (dset ds._items (get_next_item_id r)
            { name := get_next_item_id r, type := t,
              config := (get_plotly_config_and_layout result).1,
              layout := (get_plotly_config_and_layout result).2,
              raw_params := some result,
              use_code := result.use_code.getD false,
              code := result.code,
              update_on_change := result.update_on_change,
              x_field := result.x_field,
              y_field := result.y_field,
              field := result.field,
              bins := result.bins.getD 10 }).length := by
          simp [items_as_dict]
        rw [hlen, length_dset]

/-- Witness for C2 (amended): a nameless add with a fresh draw. -/
theorem spec_C2_witness :
    ((handle_plot_change cView cResultPie 7 false cPanel).map
        (fun p => p.items_config.map (fun cfg => cfg.map Prod.fst)) =
      .ok (some (if get_next_item_id 7 ∈ cDs._items.map Prod.fst
                 then cDs._items.map Prod.fst
                 else cDs._items.map Prod.fst ++ [get_next_item_id 7]))) ∧
    (if get_next_item_id 7 ∈ cDs._items.map Prod.fst
     then cDs._items.map Prod.fst
     else cDs._items.map Prod.fst ++ [get_next_item_id 7]).Nodup ∧
    ((handle_plot_change cView cResultPie 7 false cPanel).map
        (fun p => p.items_config.map List.length) =
      .ok (some (if get_next_item_id 7 ∈ cDs._items.map Prod.fst
                 then cDs._items.length else cDs._items.length + 1))) :=
  spec_C2_amended cView cResultPie 7 cPanel cDs (by decide) rfl (by decide) (by decide)

/-- C4: the numeric-histogram adapter reshapes `(counts, edges)` so that
`y` is the counts, `x` the left edges (`x[i] = edges[i]`), `width[i] =
edges[i+1] - edges[i]`, and `type` is `"bar"`; an absent `x_field`
yields the empty payload. -/
theorem spec_C4 (view : HostView) (item : DashboardPlotItem) (x : String)
    (hx : item.x_field = some x) (hne : x ≠ "") :
    (dget (load_numeric_histogram_data view item) "y" =
      some (PVal.ratList (view.histogram_values x item.bins).1)) ∧
    (dget (load_numeric_histogram_data view item) "type" = some (PVal.str "bar")) ∧
    (dget (load_numeric_histogram_data view item) "x" =
      some (PVal.ratList (view.histogram_values x item.bins).2.dropLast)) ∧
    (dget (load_numeric_histogram_data view item) "width" =
      some (PVal.ratList (List.zipWith (fun c d => c - d)
        (view.histogram_values x item.bins).2.tail
        (view.histogram_values x item.bins).2.dropLast))) ∧
    (∀ (i : Nat) (a b : ℚ), (view.histogram_values x item.bins).2[i]? = some a →
      (view.histogram_values x item.bins).2[i+1]? = some b →
      (view.histogram_values x item.bins).2.dropLast[i]? = some a ∧
      (List.zipWith (fun c d => c - d) (view.histogram_values x item.bins).2.tail
        (view.histogram_values x item.bins).2.dropLast)[i]? = some (b - a)) ∧
    (∀ item2 : DashboardPlotItem, item2.x_field = none →
      load_numeric_histogram_data view item2 = []) := by
  have hload : load_numeric_histogram_data view item =
      [("x", PVal.ratList (view.histogram_values x item.bins).2.dropLast),
       ("y", PVal.ratList (view.histogram_values x item.bins).1),
       ("type", PVal.str "bar"),
       ("width", PVal.ratList (List.zipWith (fun c d => c - d)
          (view.histogram_values x item.bins).2.tail
          (view.histogram_values x item.bins).2.dropLast))] := by
    simp [load_numeric_histogram_data, hx, hne]
  refine ⟨?_, ?_, ?_, ?_, ?_, ?_⟩
  · rw [hload]; rfl
  · rw [hload]; rfl
  · rw [hload]; rfl
  · rw [hload]; rfl
  · intro i a b h1 h2
    exact dropLast_zipWith_getElem _ i a b h1 h2
  · intro item2 h2
    simp [load_numeric_histogram_data, h2]

/-- Witness for C4 at the concrete histogram widget `cItemHist`. -/
theorem spec_C4_witness :
    dget (load_numeric_histogram_data cView cItemHist) "y" =
      some (PVal.ratList (cView.histogram_values "conf" cItemHist.bins).1) :=
  (spec_C4 cView cItemHist "conf" rfl (by decide)).1

/-- C6: `on_change_view` recomputes and pushes exactly the flagged
widgets: the configuration state is untouched, render data at any path
not belonging to a flagged widget is unchanged, and each flagged
widget's path receives its freshly computed payload. -/
theorem spec_C6 (view : HostView) (panel : Panel) (ds : DashboardState)
    (h : DashboardState.init panel = some ds) :
    (on_change_view view panel =
      .ok (apply_data { ds with _data := refreshData view ds } panel)) ∧
    ((apply_data { ds with _data := refreshData view ds } panel).items_config =
      panel.items_config) ∧
    (∀ p : String,
      (∀ kv ∈ ds._items, kv.2.update_on_change = some true →
        dataPath kv.2.name ≠ p) →
      dget (apply_data { ds with _data := refreshData view ds } panel).data p =
        dget panel.data p) ∧
    ((∀ kv ∈ ds._items, kv.1 = kv.2.name) →
      ((ds._items.map fun kv => kv.2.name).Nodup) →
      ∀ kv ∈ ds._items, kv.2.update_on_change = some true →
        dget (apply_data { ds with _data := refreshData view ds } panel).data
            (dataPath kv.1) =
          some (load_plot_data_for_item view kv.2)) := by
  have hdn : ds._data = [] := init_data_nil panel ds h
  refine ⟨by simp [on_change_view, h], rfl, ?_, ?_⟩
  · intro p hp
    show dget (dsetAll panel.data
        ((refreshData view ds).map fun kv => (dataPath kv.1, kv.2))) p =
      dget panel.data p
    apply dget_dsetAll_not_mem
    intro hmem
    rw [List.map_map] at hmem
    rcases List.mem_map.mp hmem with ⟨kv, hkv, heq⟩
    have hk1 : kv.1 ∈ (refreshData view ds).map Prod.fst :=
      List.mem_map.mpr ⟨kv, hkv, rfl⟩
    unfold refreshData at hk1
    rcases refresh_foldl_keys view ds ds._items ds._data kv.1 hk1 with
      hbase | ⟨kv2, hkv2, hf2, hn2⟩
    · rw [hdn] at hbase
      simp at hbase
    · exact hp kv2 hkv2 hf2 (by rw [hn2]; exact heq)
  · intro hself hnd kv hkv hflag
    have hname : kv.1 = kv.2.name := hself kv hkv
    have ha : dget (refreshData view ds) kv.2.name =
        some (load_plot_data view ds kv.2.name) := by
      unfold refreshData
      exact refresh_foldl_flagged view ds ds._items ds._data kv.1 kv.2 hkv hflag hnd
    have hkeysnd : (ds._items.map Prod.fst).Nodup := by
      rw [List.map_congr_left hself]
      exact hnd
    have hmemitem : (kv.2.name, kv.2) ∈ ds._items := by
      rw [← hname]
      exact hkv
    have hb : load_plot_data view ds kv.2.name = load_plot_data_for_item view kv.2 := by
      unfold load_plot_data
      rw [dget_of_mem_of_nodup ds._items kv.2.name kv.2 hmemitem hkeysnd]
    have hnodupref : ((refreshData view ds).map Prod.fst).Nodup := by
      unfold refreshData
      apply refresh_foldl_keys_nodup
      rw [hdn]
      simp
    have hpathnd : (((refreshData view ds).map
        fun kv2 => (dataPath kv2.1, kv2.2)).map Prod.fst).Nodup := by
      rw [List.map_map]
      have hcomp : (refreshData view ds).map
          (Prod.fst ∘ fun kv2 => (dataPath kv2.1, kv2.2)) =
          ((refreshData view ds).map Prod.fst).map dataPath := by
        rw [List.map_map]
        rfl
      rw [hcomp]
      exact hnodupref.map dataPath_injective
    have hgetmap : dget ((refreshData view ds).map
        fun kv2 => (dataPath kv2.1, kv2.2)) (dataPath kv.2.name) =
        some (load_plot_data_for_item view kv.2) := by
      rw [dget_map_key_inj dataPath dataPath_injective, ha, hb]
    show dget (dsetAll panel.data
        ((refreshData view ds).map fun kv2 => (dataPath kv2.1, kv2.2)))
        (dataPath kv.1) = some (load_plot_data_for_item view kv.2)
    rw [hname]
    exact dget_dsetAll_of_dget _ _ _ _ hpathnd hgetmap

/-- Witness for C6 at the flagged widget `plot_5` of `cPanel`. -/
theorem spec_C6_witness :
    dget (apply_data { cDs with _data := refreshData cView cDs } cPanel).data
        (dataPath "plot_5") = some (load_plot_data_for_item cView cItemPie) :=
  (spec_C6 cView cPanel cDs (by decide)).2.2.2
    (by intro kv hkv; simp [cDs] at hkv; subst hkv; rfl)
    (by decide) ("plot_5", cItemPie) (by decide) rfl

/-- The `on_remove` path for an absent id: the pop raises, `__exit__`
re-serializes the unchanged collection and suppresses the error. -/
theorem on_remove_absent (ctx : Ctx) (plot_id : String) (panel : Panel)
    (ds : DashboardState) (hce : can_edit ctx = true)
    (h : DashboardState.init panel = some ds)
    (hget : dget ds._items plot_id = none) :
    (on_remove ctx plot_id panel).map (fun p => p.items_config) =
      .ok (some (items_as_dict ds._items)) := by
  unfold on_remove run_with_dashboard
  rw [hce]
  simp only [if_true]
  rw [h]
  simp [remove_item, hget, apply_state, Except.map]

/-- C9 counterexample: `cPanel9` stores an item dict with the `use_code`
and `bins` keys absent; removing an absent id succeeds (the exception is
suppressed) but rewrites `"items_config"` with the normalized
serialization, so the stored value is NOT exactly what it was. -/
theorem spec_C9_counterexample :
    (on_remove ctxOSS "zz" cPanel9).isOk = true ∧
    (on_remove ctxOSS "zz" cPanel9).map (fun p => p.items_config) ≠
      .ok cPanel9.items_config := by
  exact ⟨by decide, by decide⟩

/-- C9 (amended): every exception raised inside a
`with DashboardState(ctx)` block is suppressed by `__exit__` after
re-serializing the current items, so `on_remove` of an absent id raises
nothing and writes back the re-serialization of the unchanged parsed
collection — which equals the prior stored value whenever that value was
itself a serialization (in particular whenever it was written by
`apply_state`). -/
theorem spec_C9_amended :
    (∀ (panel : Panel) (body : DashboardState → Panel →
        DashboardState × Panel × Option PyErr) (ds : DashboardState),
      DashboardState.init panel = some ds →
      run_with_dashboard panel body =
        .ok (apply_state (body ds panel).1 (body ds panel).2.1)) ∧
    (∀ (ctx : Ctx) (plot_id : String) (panel : Panel) (ds : DashboardState),
      can_edit ctx = true → DashboardState.init panel = some ds →
      dget ds._items plot_id = none →
      (on_remove ctx plot_id panel).map (fun p => p.items_config) =
        .ok (some (items_as_dict ds._items))) ∧
    (∀ (ctx : Ctx) (plot_id : String) (panel : Panel)
        (items : List (String × DashboardPlotItem)),
      can_edit ctx = true →
      panel.items_config = some (items_as_dict items) →
      dget items plot_id = none →
      (on_remove ctx plot_id panel).map (fun p => p.items_config) =
        .ok panel.items_config) := by
  refine ⟨?_, ?_, ?_⟩
  · intro panel body ds h
    unfold run_with_dashboard
    rw [h]
    cases hb : (body ds panel).2.2 <;> simp [hb]
  · intro ctx plot_id panel ds hce h hget
    exact on_remove_absent ctx plot_id panel ds hce h hget
  · intro ctx plot_id panel items hce hcfg hget
    have hpanel : ({ panel with items_config := some (items_as_dict items) } : Panel) =
        panel := by
      cases panel
      simp only [Panel.mk.injEq] at hcfg ⊢
      exact ⟨hcfg.symm, trivial⟩
    have hinit : DashboardState.init panel = some { _items := items, _data := [] } := by
      rw [← hpanel]
      exact init_items_as_dict panel items
    rw [hcfg]
    exact on_remove_absent ctx plot_id panel { _items := items, _data := [] } hce hinit hget

/-- Witness for C9 (amended): removing an absent id from the completely
serialized `cPanel` leaves the stored value exactly unchanged. -/
theorem spec_C9_witness :
    (on_remove ctxOSS "zz" cPanel).map (fun p => p.items_config) =
      .ok cPanel.items_config :=
  spec_C9_amended.2.2 ctxOSS "zz" cPanel cDs._items rfl (by decide) (by decide)
